import Mathlib

/-!
Verification of `src/kandji/auto_app_updater.py` against its design
specification.  The Python pipeline is shallowly embedded: JSON values
become an inductive type, dictionaries become association lists with
first-match lookup, the network is an oracle (`World`) supplying the
outcome of every external call, and the orchestrator `main` becomes a
pure function producing a trace of the requests it issued together with
the run outcome and the fate of the temporary artifact file.
-/

namespace AppUpdater

/-- A JSON-ish value as the pipeline manipulates it: the configuration
fields read from the catalog are nulls, booleans or strings. -/
inductive JVal where
  | jnull
  | jbool (b : Bool)
  | jstr (s : String)
deriving DecidableEq, Repr

/-- Python truthiness of a `JVal` (`None` and `""` and `False` are falsy). -/
def truthy : JVal → Bool
  | .jnull => false
  | .jbool b => b
  | .jstr s => s != ""

/-- A JSON object / Python dict, as an association list (keys unique in
every object the pipeline builds or receives). -/
abbrev JObj := List (String × JVal)

/-- First-match lookup: `some v` when the key is present (even with a
null value), `none` when absent — mirroring Python dict key presence. -/
def jget : JObj → String → Option JVal
  | [], _ => none
  | (k, v) :: rest, key => if k = key then some v else jget rest key

/-- Python `d.get(key, default)`: the default is used only when the key
is absent. -/
def jgetD (o : JObj) (key : String) (d : JVal) : JVal :=
  (jget o key).getD d

/-- Python `d.get(key)` (default `None`). -/
def pyget (o : JObj) (key : String) : JVal :=
  jgetD o key .jnull

/-- Python `a or b`: `a` when truthy, else `b`. -/
def pyOr (a b : JVal) : JVal :=
  if truthy a then a else b

/-- The environment-sourced configuration of the script: `APP_NAME`,
`APP_INSTALL_TYPE`, `APP_INSTALL_ENFORCEMENT`, `APP_SHOW_IN_SELF_SERVICE`
and `APP_SELF_SERVICE_CATEGORY_ID` (absent when the variable is unset,
as `os.getenv` returns `None`). -/
structure Env where
  appName : String
  appInstallType : String
  appInstallEnforcement : String
  appShowInSelfService : Bool
  appSelfServiceCategoryId : Option String
deriving DecidableEq, Repr

/-- `APP_SELF_SERVICE_CATEGORY_ID` as the `JVal` it denotes in
`current_settings.get(...) or APP_SELF_SERVICE_CATEGORY_ID`. -/
def Env.categoryDefault (env : Env) : JVal :=
  match env.appSelfServiceCategoryId with
  | some s => .jstr s
  | none => .jnull

/-! ## Manifest resolver (`get_manifest`, lines 180-205) -/

/-- One entry of the manifest release list: `release.get('version')` and
`release.get('updateTo', {}).get('url')`, both possibly absent. -/
structure Release where
  version : Option String
  updateToUrl : Option String
deriving DecidableEq, Repr

/-- The parsed manifest body: `manifest.get('currentRelease')` and
`manifest.get('releases', [])`. -/
structure Manifest where
  currentRelease : Option String
  releases : List Release
deriving DecidableEq, Repr

/-- The `for release in manifest.get('releases', [])` scan: the first
release whose `version` equals `currentRelease` (Python `==`, under
which two absent values compare equal). -/
def find_release : List Release → Option String → Option Release
  | [], _ => none
  | r :: rs, cur => if r.version = cur then some r else find_release rs cur

/-- `get_manifest` after a successful fetch and parse: returns
`(download_url, version)` of the first matching release, or `none` for
the raised `KandjiAPIError("Failed to find download URL in manifest")`. -/
def get_manifest (m : Manifest) : Option (Option String × Option String) :=
  match find_release m.releases m.currentRelease with
  | some r => some (r.updateToUrl, r.version)
  | none => none

/-! ## Catalog update payload (`update_app`, lines 273-301) -/

/-- One conditional script/unzip entry of the payload:
`if current_settings.get(k): payload[k] = current_settings[k]`. -/
def script_entry (cfg : JObj) (k : String) : JObj :=
  if truthy (pyget cfg k) then [(k, pyget cfg k)] else []

/-- The `# Include existing scripts and settings` block, guarded by
`if current_settings:` (an empty dict is falsy). -/
def scripts_part (cfg : JObj) : JObj :=
  if cfg = ([] : JObj) then []
  else
    script_entry cfg "audit_script" ++ script_entry cfg "preinstall_script" ++
      script_entry cfg "postinstall_script" ++ script_entry cfg "unzip_location"

/-- The `# Handle self-service settings` block: included exactly when
`payload['show_in_self_service']` is truthy. -/
def category_part (env : Env) (cfg : JObj) (flag : JVal) : JObj :=
  if truthy flag then
    [("self_service_category_id",
        pyOr (pyget cfg "self_service_category_id") env.categoryDefault)]
  else []

/-- The PATCH payload built by `update_app(file_key, current_settings,
version)`; `version` is only logged, it does not enter the payload. -/
def update_app_payload (env : Env) (file_key : String) (cfg : JObj) : JObj :=
  let flag := jgetD cfg "show_in_self_service" (.jbool env.appShowInSelfService)
  ("name", .jstr env.appName) ::
  ("file_key", .jstr file_key) ::
  ("install_type", jgetD cfg "install_type" (.jstr env.appInstallType)) ::
  ("install_enforcement", jgetD cfg "install_enforcement" (.jstr env.appInstallEnforcement)) ::
  ("show_in_self_service", flag) ::
  ("active", jgetD cfg "active" (.jbool true)) ::
  (scripts_part cfg ++ category_part env cfg flag)

/-! ## Orchestrator (`main`, lines 303-358) -/

/-- How an f-string renders the values appearing in the run summary. -/
def pyStrJ : JVal → String
  | .jnull => "None"
  | .jbool true => "True"
  | .jbool false => "False"
  | .jstr s => s

/-- `f"{version}"` where `version` may be Python `None`. -/
def pyStrOpt : Option String → String
  | none => "None"
  | some s => s

/-- The summary string built in `main` (lines 321-326) before the
dry-run branch, emitted later by `logger.info(summary)`. -/
def build_summary (dry_run : Bool) (env : Env) (version : Option String)
    (zip_url : String) (details : JObj) : String :=
  (if dry_run then "DRY RUN: Would download" else "Downloaded") ++
  " " ++ env.appName ++ " version " ++ pyStrOpt version ++ " from: " ++ zip_url ++
  "\n" ++ (if dry_run then "DRY RUN: Would upload" else "Uploaded") ++
  " to S3 and update" ++ (if dry_run then "" else "d") ++ " app with current settings" ++
  "\nApp settings " ++ (if dry_run then "that would be" else "that were") ++ " maintained:" ++
  "\n         - Install type: " ++
    pyStrJ (jgetD details "install_type" (.jstr env.appInstallType)) ++
  "\n         - Install enforcement: " ++
    pyStrJ (jgetD details "install_enforcement" (.jstr env.appInstallEnforcement)) ++
  "\n         - Show in Self Service: " ++
    pyStrJ (jgetD details "show_in_self_service" (.jbool env.appShowInSelfService))

/-- One externally visible step of a run: the network requests the
pipeline issues, the single summary emission, and the cleanup unlink. -/
inductive Action where
  | getManifest
  | getAppDetails
  | downloadZip (url : String)
  | postUploadSlot
  | postS3
  | patchApp (payload : JObj)
  | logSummary (s : String)
  | deleteTemp (path : String)
deriving DecidableEq, Repr

/-- Outcome of `download_zip`: the temporary file is created first
(`NamedTemporaryFile(delete=False)`), so a failing download still
leaves a partially written file at `path` — but then `download_zip`
raises and never returns that path. -/
inductive DL where
  | ok (path : String)
  | failAfterCreate (path : String)
deriving DecidableEq, Repr

/-- The oracle for one run: what each external call would return.
`none` means the call raises (fetch error, non-2xx, unparsable body). -/
structure World where
  manifest : Option Manifest
  appDetails : Option JObj
  dl : DL
  slotKey : Option String
  s3Ok : Bool
  patchOk : Bool
deriving DecidableEq, Repr

/-- What a run leaves behind: the exit signal of `main`, the ordered
trace of issued actions, the temp file path if one was created, and
whether that file still exists once `main` returns. -/
structure RunResult where
  success : Bool
  trace : List Action
  tempCreated : Option String
  tempExistsAfter : Bool
deriving DecidableEq, Repr

/-- Python `if not zip_url:` on the resolver's download URL. -/
def optTruthy : Option String → Bool
  | none => false
  | some s => s != ""

/-- The body of `main(dry_run)`, lines 303-358, as a pure function of
the oracle.  Every `raise` lands in the `except` clause (exit signal
`False`) and then the `finally` clause, which unlinks the temp file
only when `zip_path` was assigned. -/
def main_run (env : Env) (dry_run : Bool) (w : World) : RunResult :=
  match w.manifest with
  | none => ⟨false, [.getManifest], none, false⟩
  | some m =>
    match get_manifest m with
    | none => ⟨false, [.getManifest], none, false⟩
    | some (zip_url, version) =>
      if ¬ optTruthy zip_url then
        ⟨false, [.getManifest], none, false⟩
      else
        match w.appDetails with
        | none => ⟨false, [.getManifest, .getAppDetails], none, false⟩
        | some details =>
          let url := zip_url.getD ""
          let summary := build_summary dry_run env version url details
          if dry_run then
            ⟨true, [.getManifest, .getAppDetails, .logSummary summary], none, false⟩
          else
            match w.dl with
            | .failAfterCreate p =>
              ⟨false, [.getManifest, .getAppDetails, .downloadZip url], some p, true⟩
            | .ok p =>
              match w.slotKey with
              | none =>
                ⟨false, [.getManifest, .getAppDetails, .downloadZip url,
                  .postUploadSlot, .deleteTemp p], some p, false⟩
              | some file_key =>
                if ¬ w.s3Ok then
                  ⟨false, [.getManifest, .getAppDetails, .downloadZip url,
                    .postUploadSlot, .postS3, .deleteTemp p], some p, false⟩
                else
                  let payload := update_app_payload env file_key details
                  if w.patchOk then
                    ⟨true, [.getManifest, .getAppDetails, .downloadZip url,
                      .postUploadSlot, .postS3, .patchApp payload,
                      .logSummary summary, .deleteTemp p], some p, false⟩
                  else
                    ⟨false, [.getManifest, .getAppDetails, .downloadZip url,
                      .postUploadSlot, .postS3, .patchApp payload,
                      .deleteTemp p], some p, false⟩

/-- Requests that mutate remote state or transfer the artifact: the
download GET, both POSTs, and the catalog PATCH. -/
def isMutating : Action → Bool
  | .downloadZip _ => true
  | .postUploadSlot => true
  | .postS3 => true
  | .patchApp _ => true
  | _ => false

/-- Is this action the artifact download? -/
def isDownload : Action → Bool
  | .downloadZip _ => true
  | _ => false

/-- Is this action the catalog PATCH? -/
def isPatch : Action → Bool
  | .patchApp _ => true
  | _ => false

/-- Number of summary emissions in a trace. -/
def countSummaries (t : List Action) : Nat :=
  t.countP fun a => match a with | .logSummary _ => true | _ => false

/-! ## Concrete fixtures used to instantiate the theorems -/

/-- A default environment: only the required variables set. -/
def env0 : Env := ⟨"YourApp.app", "package", "install_once", false, none⟩

/-- The manifest of the spec's resolution scenario. -/
def mGood : Manifest :=
  ⟨some "2.1.0",
   [⟨some "2.0.0", some "https://x/old.zip"⟩, ⟨some "2.1.0", some "https://x/new.zip"⟩]⟩

/-- The catalog config of the spec's self-service scenario. -/
def details0 : JObj :=
  [("install_type", .jstr "zip"), ("show_in_self_service", .jbool true),
   ("self_service_category_id", .jstr "cat-1")]

/-- A world where every external call succeeds. -/
def wGood : World := ⟨some mGood, some details0, .ok "/tmp/a.zip", some "fk-1", true, true⟩

/-- A manifest whose release list has no entry matching `currentRelease`. -/
def mNoMatch : Manifest := ⟨some "2.0", [⟨some "1.0", some "https://x/a.zip"⟩]⟩

/-- A world whose manifest resolution fails (no matching release). -/
def wNoMatch : World := ⟨some mNoMatch, some details0, .ok "/tmp/a.zip", some "fk-1", true, true⟩

/-- A world where the artifact download fails after the temporary file
was created (e.g. a non-2xx response from the download URL). -/
def wPartial : World := { wGood with dl := .failAfterCreate "/tmp/partial.zip" }

/-- A world where the upload-slot POST fails (e.g. HTTP 500 surviving
the transport retries). -/
def wSlotFail : World := { wGood with slotKey := none }

/-- A manifest with two releases both matching `currentRelease`. -/
def mDup : Manifest :=
  ⟨some "1.0", [⟨some "1.0", some "https://x/first.zip"⟩, ⟨some "1.0", some "https://x/second.zip"⟩]⟩

/-- A manifest whose matching release carries no `updateTo.url`. -/
def mNoUrl : Manifest := ⟨some "3.0", [⟨some "3.0", none⟩]⟩

/-- A world serving `mNoUrl`; all later calls would succeed. -/
def wNoUrl : World := { wGood with manifest := some mNoUrl }

/-- A catalog config holding a lifecycle script that is present but
empty, plus a field outside the payload's fixed key set. -/
def cfgC1 : JObj := [("audit_script", .jstr ""), ("custom_field", .jstr "keep-me")]

/-- A catalog config exercising every carried field of the payload. -/
def cfgFull : JObj :=
  [("install_type", .jstr "zip"), ("active", .jbool false),
   ("audit_script", .jstr "echo ok"), ("unzip_location", .jstr "/Applications"),
   ("show_in_self_service", .jbool true), ("self_service_category_id", .jstr "cat-1")]

/-! ## Helper lemmas -/

theorem jget_append_none {l1 : JObj} {key : String} (h : jget l1 key = none)
    (l2 : JObj) : jget (l1 ++ l2) key = jget l2 key := by
  induction l1 with
  | nil => simp
  | cons a l1 ih =>
    obtain ⟨k, v⟩ := a
    by_cases hk : k = key
    · simp [jget, hk] at h
    · simp only [jget, hk, if_neg, List.cons_append] at h ⊢
      simp [jget, hk, ih h]

theorem jget_append_some {l1 : JObj} {key : String} {v : JVal}
    (h : jget l1 key = some v) (l2 : JObj) : jget (l1 ++ l2) key = some v := by
  induction l1 with
  | nil => simp [jget] at h
  | cons a l1 ih =>
    obtain ⟨k, w⟩ := a
    by_cases hk : k = key
    · simp only [jget, hk, if_pos] at h ⊢
      simpa using h
    · simp only [jget, hk, if_neg, List.cons_append] at h ⊢
      simp [jget, hk, ih h]

theorem jget_script_entry_ne (cfg : JObj) {k key : String} (h : k ≠ key) :
    jget (script_entry cfg k) key = none := by
  unfold script_entry
  split <;> simp [jget, h]

theorem jget_category_part_ne (env : Env) (cfg : JObj) (flag : JVal) {key : String}
    (h : key ≠ "self_service_category_id") :
    jget (category_part env cfg flag) key = none := by
  unfold category_part
  split <;> simp [jget, Ne.symm h]

theorem jget_scripts_part_ne (cfg : JObj) {key : String}
    (h1 : key ≠ "audit_script") (h2 : key ≠ "preinstall_script")
    (h3 : key ≠ "postinstall_script") (h4 : key ≠ "unzip_location") :
    jget (scripts_part cfg) key = none := by
  unfold scripts_part
  split
  · simp [jget]
  · simp only [List.append_assoc]
    rw [jget_append_none (jget_script_entry_ne cfg (Ne.symm h1)),
      jget_append_none (jget_script_entry_ne cfg (Ne.symm h2)),
      jget_append_none (jget_script_entry_ne cfg (Ne.symm h3)),
      jget_script_entry_ne cfg (Ne.symm h4)]

theorem find_release_none {rs : List Release} {cur : Option String}
    (h : ∀ r ∈ rs, r.version ≠ cur) : find_release rs cur = none := by
  induction rs with
  | nil => rfl
  | cons a rs ih =>
    have ha : a.version ≠ cur := h a (List.mem_cons_self a rs)
    simp only [find_release, ha, if_neg]
    exact ih fun r hr => h r (List.mem_cons_of_mem a hr)

theorem find_release_unique {rs : List Release} {cur : Option String} {r : Release}
    (hmem : r ∈ rs) (hv : r.version = cur)
    (hu : ∀ r' ∈ rs, r'.version = cur → r' = r) : find_release rs cur = some r := by
  induction rs with
  | nil => exact absurd hmem (List.not_mem_nil r)
  | cons a rs ih =>
    by_cases ha : a.version = cur
    · have heq : a = r := hu a (List.mem_cons_self a rs) ha
      subst heq
      simp [find_release, ha]
    · simp only [find_release, ha, if_neg]
      have hmem' : r ∈ rs := by
        rcases List.mem_cons.mp hmem with h | h
        · exact absurd (h ▸ hv) ha
        · exact h
      exact ih hmem' fun r' h' hv' => hu r' (List.mem_cons_of_mem a h') hv'

theorem find_release_first {pre : List Release} {r : Release} {rest : List Release}
    {cur : Option String} (hpre : ∀ r' ∈ pre, r'.version ≠ cur)
    (hv : r.version = cur) : find_release (pre ++ r :: rest) cur = some r := by
  induction pre with
  | nil => simp [find_release, hv]
  | cons a pre ih =>
    have ha : a.version ≠ cur := hpre a (List.mem_cons_self a pre)
    simp only [List.cons_append, find_release, ha, if_neg]
    exact ih fun r' hr => hpre r' (List.mem_cons_of_mem a hr)

/-- C5: for every manifest in which no release's version equals
`currentRelease`, resolution fails (the `KandjiAPIError` is raised), the
run ends with the failure exit signal, and no download is attempted —
the trace stops at the manifest fetch. -/
theorem no_matching_release_fails_without_download (env : Env) (dry : Bool)
    (w : World) (m : Manifest) (hm : w.manifest = some m)
    (h : ∀ r ∈ m.releases, r.version ≠ m.currentRelease) :
    get_manifest m = none ∧ (main_run env dry w).success = false ∧
      (main_run env dry w).trace = [Action.getManifest] ∧
      (main_run env dry w).trace.any isDownload = false := by
  have hg : get_manifest m = none := by
    unfold get_manifest
    rw [find_release_none h]
  refine ⟨hg, ?_, ?_, ?_⟩ <;> simp [main_run, hm, hg, isDownload]

theorem no_matching_release_fails_without_download_witness :
    get_manifest mNoMatch = none ∧ (main_run env0 false wNoMatch).success = false ∧
      (main_run env0 false wNoMatch).trace = [Action.getManifest] ∧
      (main_run env0 false wNoMatch).trace.any isDownload = false :=
  no_matching_release_fails_without_download env0 false wNoMatch mNoMatch rfl (by decide)

/-- C6: for every manifest containing exactly one release whose version
equals `currentRelease`, the resolver returns that release's download
URL and version; instantiated by the witness at the spec's concrete
scenario manifest, which resolves to `("https://x/new.zip", "2.1.0")`. -/
theorem resolver_returns_matching_release (m : Manifest) (r : Release)
    (hmem : r ∈ m.releases) (hv : r.version = m.currentRelease)
    (hu : ∀ r' ∈ m.releases, r'.version = m.currentRelease → r' = r) :
    get_manifest m = some (r.updateToUrl, r.version) := by
  unfold get_manifest
  rw [find_release_unique hmem hv hu]

theorem resolver_returns_matching_release_witness :
    get_manifest mGood = some (some "https://x/new.zip", some "2.1.0") :=
  resolver_returns_matching_release mGood ⟨some "2.1.0", some "https://x/new.zip"⟩
    (by decide) rfl (by decide)

/-- C9: when several releases match `currentRelease`, resolution still
succeeds and returns the first match in list order. -/
theorem resolver_returns_first_duplicate (m : Manifest) (pre : List Release)
    (r : Release) (rest : List Release) (hsplit : m.releases = pre ++ r :: rest)
    (hpre : ∀ r' ∈ pre, r'.version ≠ m.currentRelease)
    (hv : r.version = m.currentRelease) :
    get_manifest m = some (r.updateToUrl, r.version) := by
  unfold get_manifest
  rw [hsplit, find_release_first hpre hv]

theorem resolver_returns_first_duplicate_witness :
    get_manifest mDup = some (some "https://x/first.zip", some "1.0") :=
  resolver_returns_first_duplicate mDup [] ⟨some "1.0", some "https://x/first.zip"⟩
    [⟨some "1.0", some "https://x/second.zip"⟩] rfl (by simp) rfl

/-- C10: when the matching release has no `updateTo.url`, `get_manifest`
itself returns successfully with an empty (absent) download URL and the
version, and `main` then fails — with the failure exit signal — before
reading the catalog config, downloading or uploading: the trace stops
at the manifest fetch. -/
theorem missing_url_fails_before_config_read (env : Env) (dry : Bool) (w : World)
    (m : Manifest) (r : Release) (hm : w.manifest = some m)
    (hf : find_release m.releases m.currentRelease = some r)
    (hu : r.updateToUrl = none) :
    get_manifest m = some (none, r.version) ∧
      (main_run env dry w).success = false ∧
      (main_run env dry w).trace = [Action.getManifest] := by
  have hg : get_manifest m = some (none, r.version) := by
    unfold get_manifest
    rw [hf]
    simp [hu]
  refine ⟨hg, ?_, ?_⟩ <;> simp [main_run, hm, hg, optTruthy]

theorem missing_url_fails_before_config_read_witness :
    get_manifest mNoUrl = some (none, some "3.0") ∧
      (main_run env0 false wNoUrl).success = false ∧
      (main_run env0 false wNoUrl).trace = [Action.getManifest] :=
  missing_url_fails_before_config_read env0 false wNoUrl mNoUrl
    ⟨some "3.0", none⟩ rfl rfl rfl

theorem build_summary_dry_head (env : Env) (v : Option String) (url : String)
    (d : JObj) :
    ∃ t, build_summary true env v url d = "DRY RUN: Would download" ++ t := by
  simp only [build_summary, String.append_assoc]
  exact ⟨_, rfl⟩

/-- C3: every dry-run issues no download, no POST and no PATCH — its
trace contains no mutating request, whatever the manifest or config —
and every summary it emits opens with the hypothetical dry-run
wording. -/
theorem dry_run_no_mutation (env : Env) (w : World) :
    (main_run env true w).trace.any isMutating = false ∧
      (main_run env true w).tempCreated = none ∧
      ∀ s, Action.logSummary s ∈ (main_run env true w).trace →
        ∃ t, s = "DRY RUN: Would download" ++ t := by
  obtain ⟨mf, ad, dl, sk, s3, pk⟩ := w
  cases mf with
  | none => simp [main_run, isMutating]
  | some m =>
    cases hg : get_manifest m with
    | none => simp [main_run, hg, isMutating]
    | some uv =>
      obtain ⟨u, v⟩ := uv
      by_cases hu : optTruthy u
      · cases ad with
        | none => simp [main_run, hg, hu, isMutating]
        | some details =>
          refine ⟨by simp [main_run, hg, hu, isMutating],
            by simp [main_run, hg, hu], ?_⟩
          intro s hs
          simp [main_run, hg, hu] at hs
          exact hs ▸ build_summary_dry_head env v (u.getD "") details
      · simp [main_run, hg, hu, isMutating]

set_option maxRecDepth 100000 in
theorem dry_run_no_mutation_witness :
    (main_run env0 true wGood).trace.any isMutating = false ∧
      (main_run env0 true wGood).tempCreated = none ∧
      ∃ t, build_summary true env0 (some "2.1.0") "https://x/new.zip" details0 =
        "DRY RUN: Would download" ++ t :=
  ⟨(dry_run_no_mutation env0 wGood).1, (dry_run_no_mutation env0 wGood).2.1,
   (dry_run_no_mutation env0 wGood).2.2
     (build_summary true env0 (some "2.1.0") "https://x/new.zip" details0)
     (by decide)⟩

/-- C4: the catalog PATCH appears in a run's trace only when the run is
not a dry-run, the download returned, the upload-slot POST returned a
file key and the S3 POST succeeded; and when the upload-slot request
fails, the run exits with the failure signal and no PATCH is issued. -/
theorem patch_requires_download_and_upload (env : Env) (dry : Bool) (w : World) :
    ((∃ p, Action.patchApp p ∈ (main_run env dry w).trace) →
      dry = false ∧ (∃ q, w.dl = DL.ok q) ∧ w.slotKey.isSome = true ∧
        w.s3Ok = true) ∧
    (dry = false → w.slotKey = none →
      (main_run env dry w).success = false ∧
        (main_run env dry w).trace.any isPatch = false) := by
  obtain ⟨mf, ad, dl, sk, s3, pk⟩ := w
  cases mf with
  | none =>
    refine ⟨fun h => ?_, fun _ _ => ?_⟩
    · obtain ⟨p, hp⟩ := h
      simp [main_run] at hp
    · simp [main_run, isPatch]
  | some m =>
    cases hg : get_manifest m with
    | none =>
      refine ⟨fun h => ?_, fun _ _ => ?_⟩
      · obtain ⟨p, hp⟩ := h
        simp [main_run, hg] at hp
      · simp [main_run, hg, isPatch]
    | some uv =>
      obtain ⟨u, v⟩ := uv
      by_cases hu : optTruthy u
      case neg =>
        refine ⟨fun h => ?_, fun _ _ => ?_⟩
        · obtain ⟨p, hp⟩ := h
          simp [main_run, hg, hu] at hp
        · simp [main_run, hg, hu, isPatch]
      case pos =>
        cases ad with
        | none =>
          refine ⟨fun h => ?_, fun _ _ => ?_⟩
          · obtain ⟨p, hp⟩ := h
            simp [main_run, hg, hu] at hp
          · simp [main_run, hg, hu, isPatch]
        | some details =>
          cases dry with
          | true =>
            refine ⟨fun h => ?_, fun hdry _ => ?_⟩
            · obtain ⟨p, hp⟩ := h
              simp [main_run, hg, hu] at hp
            · exact absurd hdry (by simp)
          | false =>
            cases dl with
            | failAfterCreate p0 =>
              refine ⟨fun h => ?_, fun _ _ => ?_⟩
              · obtain ⟨p, hp⟩ := h
                simp [main_run, hg, hu] at hp
              · simp [main_run, hg, hu, isPatch]
            | ok p0 =>
              cases sk with
              | none =>
                refine ⟨fun h => ?_, fun _ _ => ?_⟩
                · obtain ⟨p, hp⟩ := h
                  simp [main_run, hg, hu] at hp
                · simp [main_run, hg, hu, isPatch]
              | some fk =>
                refine ⟨fun h => ?_, fun _ hsk => ?_⟩
                · by_cases h3 : s3
                  · exact ⟨rfl, ⟨p0, rfl⟩, rfl, h3⟩
                  · obtain ⟨p, hp⟩ := h
                    simp [main_run, hg, hu, h3] at hp
                · exact absurd hsk (by simp)

theorem patch_requires_download_and_upload_witness :
    ((false = false) ∧ (∃ q, wGood.dl = DL.ok q) ∧ wGood.slotKey.isSome = true ∧
        wGood.s3Ok = true) ∧
      ((main_run env0 false wSlotFail).success = false ∧
        (main_run env0 false wSlotFail).trace.any isPatch = false) :=
  ⟨(patch_requires_download_and_upload env0 false wGood).1
      ⟨update_app_payload env0 "fk-1" details0, by decide⟩,
   (patch_requires_download_and_upload env0 false wSlotFail).2 rfl rfl⟩

/-- C8 (amended): the run summary is emitted exactly once on every run
that ends with the success exit signal — dry-run or real — and zero
times on every failed run; in particular it is not emitted exactly once
on every run. -/
theorem summary_count_matches_outcome (env : Env) (dry : Bool) (w : World) :
    countSummaries (main_run env dry w).trace =
      (if (main_run env dry w).success then 1 else 0) := by
  obtain ⟨mf, ad, dl, sk, s3, pk⟩ := w
  cases mf with
  | none => simp [main_run, countSummaries]
  | some m =>
    cases hg : get_manifest m with
    | none => simp [main_run, hg, countSummaries]
    | some uv =>
      obtain ⟨u, v⟩ := uv
      by_cases hu : optTruthy u
      case neg => simp [main_run, hg, hu, countSummaries]
      case pos =>
        cases ad with
        | none => simp [main_run, hg, hu, countSummaries]
        | some details =>
          cases dry with
          | true => simp [main_run, hg, hu, countSummaries]
          | false =>
            cases dl with
            | failAfterCreate p0 => simp [main_run, hg, hu, countSummaries]
            | ok p0 =>
              cases sk with
              | none => simp [main_run, hg, hu, countSummaries]
              | some fk =>
                by_cases h3 : s3
                · by_cases hpk : pk
                  · simp [main_run, hg, hu, h3, hpk, countSummaries]
                  · simp [main_run, hg, hu, h3, hpk, countSummaries]
                · simp [main_run, hg, hu, h3, countSummaries]

/-- C8 (counterexample): a failed run — here, manifest resolution finds
no matching release — emits the summary zero times, refuting the claim
that every run emits it exactly once. -/
theorem failed_run_emits_no_summary :
    (main_run env0 false wNoMatch).success = false ∧
      countSummaries (main_run env0 false wNoMatch).trace = 0 := by
  decide

/-- C2: evaluation of the code at the failing input — a run whose
artifact download fails after the temporary file was created. The
exception propagates before `zip_path` is assigned, so the cleanup in
the `finally` clause skips the unlink and the partial file survives
the run, contradicting the claimed always-cleanup. -/
theorem download_failure_leaks_temp_file :
    (main_run env0 false wPartial).success = false ∧
      (main_run env0 false wPartial).tempCreated = some "/tmp/partial.zip" ∧
      (main_run env0 false wPartial).tempExistsAfter = true := by
  decide

theorem jget_payload_tail (env : Env) (fk : String) (cfg : JObj) {key : String}
    (h1 : key ≠ "name") (h2 : key ≠ "file_key") (h3 : key ≠ "install_type")
    (h4 : key ≠ "install_enforcement") (h5 : key ≠ "show_in_self_service")
    (h6 : key ≠ "active") :
    jget (update_app_payload env fk cfg) key =
      jget (scripts_part cfg ++
        category_part env cfg
          (jgetD cfg "show_in_self_service" (.jbool env.appShowInSelfService))) key := by
  unfold update_app_payload
  simp [jget, Ne.symm h1, Ne.symm h2, Ne.symm h3, Ne.symm h4, Ne.symm h5, Ne.symm h6]

/-- C7: in every payload built by `update_app`, the self-service
category key is present exactly when the payload's
`show_in_self_service` value is truthy, and a truthy category already
held by the remote config is carried into the payload unchanged,
winning over the local `APP_SELF_SERVICE_CATEGORY_ID` default. -/
theorem category_present_iff_visibility (env : Env) (fk : String) (cfg : JObj) :
    jget (update_app_payload env fk cfg) "show_in_self_service" =
      some (jgetD cfg "show_in_self_service" (.jbool env.appShowInSelfService)) ∧
    (jget (update_app_payload env fk cfg) "self_service_category_id").isSome =
      truthy (jgetD cfg "show_in_self_service" (.jbool env.appShowInSelfService)) ∧
    (∀ c, jget cfg "self_service_category_id" = some (.jstr c) → c ≠ "" →
      truthy (jgetD cfg "show_in_self_service" (.jbool env.appShowInSelfService)) = true →
      jget (update_app_payload env fk cfg) "self_service_category_id" =
        some (.jstr c)) := by
  have htail := @jget_payload_tail env fk cfg "self_service_category_id"
    (by decide) (by decide) (by decide) (by decide) (by decide) (by decide)
  rw [jget_append_none (jget_scripts_part_ne cfg
    (by decide) (by decide) (by decide) (by decide))] at htail
  refine ⟨?_, ?_, ?_⟩
  · unfold update_app_payload
    simp [jget]
  · rw [htail]
    unfold category_part
    split
    case isTrue h => simp [jget, h]
    case isFalse h => simp [jget, Bool.not_eq_true _ ▸ h, eq_false_of_ne_true h]
  · intro c hc hcne hflag
    rw [htail]
    unfold category_part
    rw [if_pos hflag]
    have : pyOr (pyget cfg "self_service_category_id") env.categoryDefault = .jstr c := by
      simp [pyget, jgetD, hc, pyOr, truthy, hcne]
    simp [jget, this]

theorem category_present_iff_visibility_witness :
    jget (update_app_payload env0 "fk-1" details0) "self_service_category_id" =
      some (.jstr "cat-1") :=
  (category_present_iff_visibility env0 "fk-1" details0).2.2 "cat-1"
    (by decide) (by decide) (by decide)

/-- C1 (amended): the payload built by `update_app` always carries the
new artifact file key; it carries the install type, install
enforcement, self-service visibility and active flag from the remote
config whenever those keys are present; it carries the lifecycle
scripts and the unzip location whenever present with a truthy
(non-empty) value — but drops them when present with a falsy value —
and it forwards no remote field outside this fixed key set. -/
theorem update_payload_field_preservation (env : Env) (fk : String) (cfg : JObj) :
    jget (update_app_payload env fk cfg) "file_key" = some (.jstr fk) ∧
    (∀ k v, k ∈ ["install_type", "install_enforcement", "show_in_self_service",
        "active"] → jget cfg k = some v →
      jget (update_app_payload env fk cfg) k = some v) ∧
    (∀ k v, k ∈ ["audit_script", "preinstall_script", "postinstall_script",
        "unzip_location"] → jget cfg k = some v → truthy v = true →
      jget (update_app_payload env fk cfg) k = some v) ∧
    (∀ k, k ∉ ["name", "file_key", "install_type", "install_enforcement",
        "show_in_self_service", "active", "audit_script", "preinstall_script",
        "postinstall_script", "unzip_location", "self_service_category_id"] →
      jget (update_app_payload env fk cfg) k = none) := by
  refine ⟨?_, ?_, ?_, ?_⟩
  · unfold update_app_payload
    simp [jget]
  · intro k v hk hv
    simp only [List.mem_cons, List.not_mem_nil, or_false] at hk
    rcases hk with rfl | rfl | rfl | rfl <;>
      · unfold update_app_payload
        simp [jget, jgetD, hv]
  · intro k v hk hv htr
    have hcfg : cfg ≠ ([] : JObj) := by
      intro h
      rw [h] at hv
      simp [jget] at hv
    have hval : jget (script_entry cfg k) k = some v := by
      simp [script_entry, pyget, jgetD, hv, htr, jget]
    simp only [List.mem_cons, List.not_mem_nil, or_false] at hk
    rcases hk with rfl | rfl | rfl | rfl <;>
      · rw [jget_payload_tail env fk cfg
          (by decide) (by decide) (by decide) (by decide) (by decide) (by decide)]
        unfold scripts_part
        rw [if_neg hcfg]
        simp only [List.append_assoc]
        first
        | rw [jget_append_some hval]
        | rw [jget_append_none (jget_script_entry_ne cfg (by decide)),
            jget_append_some hval]
        | rw [jget_append_none (jget_script_entry_ne cfg (by decide)),
            jget_append_none (jget_script_entry_ne cfg (by decide)),
            jget_append_some hval]
        | rw [jget_append_none (jget_script_entry_ne cfg (by decide)),
            jget_append_none (jget_script_entry_ne cfg (by decide)),
            jget_append_none (jget_script_entry_ne cfg (by decide)),
            jget_append_some hval]
  · intro k hk
    simp only [List.mem_cons, List.not_mem_nil, or_false, not_or] at hk
    obtain ⟨h1, h2, h3, h4, h5, h6, h7, h8, h9, h10, h11⟩ := hk
    rw [jget_payload_tail env fk cfg h1 h2 h3 h4 h5 h6,
      jget_append_none (jget_scripts_part_ne cfg h7 h8 h9 h10),
      jget_category_part_ne env cfg _ h11]

theorem update_payload_field_preservation_witness :
    jget (update_app_payload env0 "fk-2" cfgFull) "file_key" =
        some (.jstr "fk-2") ∧
      jget (update_app_payload env0 "fk-2" cfgFull) "install_type" =
        some (.jstr "zip") ∧
      jget (update_app_payload env0 "fk-2" cfgFull) "active" =
        some (.jbool false) ∧
      jget (update_app_payload env0 "fk-2" cfgFull) "audit_script" =
        some (.jstr "echo ok") ∧
      jget (update_app_payload env0 "fk-2" cfgFull) "custom_field" = none :=
  ⟨(update_payload_field_preservation env0 "fk-2" cfgFull).1,
   (update_payload_field_preservation env0 "fk-2" cfgFull).2.1
     "install_type" (.jstr "zip") (by decide) (by decide),
   (update_payload_field_preservation env0 "fk-2" cfgFull).2.1
     "active" (.jbool false) (by decide) (by decide),
   (update_payload_field_preservation env0 "fk-2" cfgFull).2.2.1
     "audit_script" (.jstr "echo ok") (by decide) (by decide) (by decide),
   (update_payload_field_preservation env0 "fk-2" cfgFull).2.2.2
     "custom_field" (by decide)⟩

/-- C1 (counterexample): the claim fails as stated — a lifecycle script
present in the remote config with an empty value is omitted from the
payload, and a config field outside the payload's fixed key set is not
forwarded at all. -/
theorem update_payload_drops_present_fields :
    jget cfgC1 "audit_script" = some (.jstr "") ∧
      jget (update_app_payload env0 "new-key" cfgC1) "audit_script" = none ∧
      jget cfgC1 "custom_field" = some (.jstr "keep-me") ∧
      jget (update_app_payload env0 "new-key" cfgC1) "custom_field" = none := by
  decide

end AppUpdater
